import Mathlib

/-!
Shallow embedding of the proximity transport
(`pkg/proximitytransport/transport.go`) of the weshnet repository.

The transport bridges a callback-driven native proximity driver (BLE,
Multipeer Connectivity, Nearby, ...) and the libp2p overlay.  The
stateful Go code is embedded as explicit state passing: each operation
is a pure Lean function from the transport state (plus the global
transport registry where relevant) to a result and a new state.  Machine
side effects that the claims are about — the connection map, the
transport-level ring-buffer cache, the listener slot, the listener's
inbound-request channel (modelled as an appended queue), the peerstore
and the swarm's connection list — are all fields of the state.

Components whose Go sources are not available (`listener.go`,
`conn.go`, `ring_buffer_map.go`, the noop driver) are modelled from the
spec; each such definition carries a doc comment starting with
`Modelled from the spec:`.  External libraries (multiaddr, libp2p peer
ids, zap logging) are modelled minimally: a multiaddr is a list of
(code, name, value) components, a peer id is its string form, and the
validity of a peer-id string is an explicit `decodeOk` parameter.
-/

namespace Proximity

/-- Byte payloads ferried by the native driver (`[]byte` in Go). -/
abbrev Bytes := List Nat

/-- One `/name/value` component of a multiaddress, together with the
numeric protocol code it is registered under. -/
structure MaComponent where
  code : Nat
  name : String
  value : String
deriving DecidableEq, BEq

/-- A multiaddress: a sequence of components.  The transport only ever
builds and reads single-component addresses `/<protocol>/<peer-id>`,
but `ValueForProtocol` can be called on arbitrary addresses. -/
structure Multiaddr where
  components : List MaComponent
deriving DecidableEq, BEq

/-- Go's `ma.Multiaddr.ValueForProtocol(code)`: the value of the first
component registered under `code`; `none` models the non-nil error
returned when the address has no such component. -/
def valueForProtocol (m : Multiaddr) (code : Nat) : Option String :=
  (m.components.find? (fun c => c.code == code)).map (fun c => c.value)

/-- Go's `ma.Multiaddr.String()`: the canonical `/name/value/...` rendering. -/
def maString (m : Multiaddr) : String :=
  m.components.foldl (fun acc c => acc ++ "/" ++ c.name ++ "/" ++ c.value) ""

/-- The `ProximityDriver` capability consumed by the transport:
protocol name/code pair, the `DefaultAddr()` sentinel, and the
`DialPeer` link predicate.  `CloseConnWithPeer` is only invoked inside
the asynchronous dial-failure path and has no observable effect on the
transport state, so it is not modelled. -/
structure ProximityDriver where
  protocolName : String
  protocolCode : Nat
  defaultAddr : String
  dialPeer : String → Bool

/-- Go's `ma.NewMultiaddr(fmt.Sprintf("/%s/%s", protocolName, pid))` for the
transport's own (registered) protocol: constructing it never fails. -/
def mkMultiaddr (d : ProximityDriver) (pid : String) : Multiaddr :=
  ⟨[⟨d.protocolCode, d.protocolName, pid⟩]⟩

/-- Modelled from the spec: `ring_buffer_map.go` is not under `src/`.
Spec §4.1: a per-key bounded FIFO of byte buffers; `Add` appends and
drops the head when the key's queue is at capacity; `Delete` drops the
queue for the key.  The capacity is the `128` passed at construction. -/
structure RingBufferMap where
  cap : Nat
  entries : List (String × List Bytes)

/-- Go's `NewRingBufferMap(logger, size)` (the logger carries no state). -/
def NewRingBufferMap (size : Nat) : RingBufferMap := ⟨size, []⟩

/-- The queue currently held for a key (`none` when the key is absent). -/
def RingBufferMap.lookup (m : RingBufferMap) (k : String) : Option (List Bytes) :=
  (m.entries.find? (fun e => e.1 == k)).map (fun e => e.2)

/-- Modelled from the spec: §4.1 `Add(key, payload)` — append to the
per-key queue, dropping the oldest entry when at capacity. -/
def RingBufferMap.Add (m : RingBufferMap) (k : String) (v : Bytes) : RingBufferMap :=
  match m.lookup k with
  | none => ⟨m.cap, m.entries ++ [(k, [v])]⟩
  | some q =>
      let q1 := if m.cap ≤ q.length then q.drop 1 ++ [v] else q ++ [v]
      ⟨m.cap, m.entries.map (fun e => if e.1 == k then (e.1, q1) else e)⟩

/-- Modelled from the spec: §4.1 `Delete(key)` — drop the key's queue. -/
def RingBufferMap.Delete (m : RingBufferMap) (k : String) : RingBufferMap :=
  ⟨m.cap, m.entries.filter (fun e => !(e.1 == k))⟩

/-- Go's `network.Direction` restricted to the two values the transport uses. -/
inductive Direction where
  | inbound
  | outbound
deriving DecidableEq, BEq

/-- Modelled from the spec: `conn.go` is not under `src/`.  Spec §3/§4.2:
a `Conn` carries the remote peer id and multiaddress, its direction, the
`ready` flag, a pre-ready `RingBufferMap` cache keyed by the remote peer
id, and the input pipe (`mp.input`) delivering payloads to the upgraded
stream — modelled as the list of payloads pushed so far.  The Go
back-reference to the transport is the enclosing state here. -/
structure Conn where
  remotePID : String
  remoteMa : Multiaddr
  direction : Direction
  ready : Bool
  cache : RingBufferMap
  inputPipe : List Bytes

/-- A pending inbound connection request (`connReq` in `listener.go`). -/
structure ConnReq where
  remoteMa : Multiaddr
  remotePID : String

/-- Modelled from the spec: `listener.go` is not under `src/`.  Spec §3:
a listener holds the normalized local multiaddress, the inbound-request
channel (modelled as the queue of pending requests appended by
`HandleFoundPeer`), and a context derived from the transport's context
(`ctxCancelled` models `listener.ctx.Err() != nil`). -/
structure Listener where
  localMa : Multiaddr
  inboundConnReq : List ConnReq
  ctxCancelled : Bool

/-- A `zap.Logger`: only the facts the claims mention are modelled —
whether it is the no-op logger and its accumulated name. -/
structure Logger where
  nop : Bool
  name : String
deriving DecidableEq

/-- Go's `zap.NewNop()`. -/
def zapNewNop : Logger := ⟨true, ""⟩

/-- Go's `zap.Logger.Named(n)`: appends the name with a period separator
(or adopts it when the logger is unnamed). -/
def Logger.Named (l : Logger) (n : String) : Logger :=
  ⟨l.nop, if l.name == "" then n else l.name ++ "." ++ n⟩

/-- One overlay (swarm) connection, as seen by `HandleLostPeer` through
`swarm.ConnsToPeer`: its remote peer id, remote multiaddress, and
whether `Close()` has been called on it. -/
structure SwarmConn where
  remotePID : String
  remoteMa : Multiaddr
  closed : Bool

/-- The `proximityTransport` state.  `localPID` is
`swarm.LocalPeer().String()`; `peerstore` and `swarmConns` embed the
parts of the overlay swarm the transport mutates; the mutexes guard
state that is explicit here, so they have no counterpart. -/
structure Transport where
  localPID : String
  connMap : List (String × Conn)
  cache : RingBufferMap
  listener : Option Listener
  driver : ProximityDriver
  logger : Logger
  peerstore : List (String × List Multiaddr)
  swarmConns : List SwarmConn

/-- Go's `t.connMap[pid]` lookup. -/
def lookupConn (m : List (String × Conn)) (pid : String) : Option Conn :=
  (m.find? (fun e => e.1 == pid)).map (fun e => e.2)

/-- Replace the map entry for `pid` by the updated `Conn`. -/
def replaceConn (m : List (String × Conn)) (pid : String) (c : Conn) :
    List (String × Conn) :=
  m.map (fun e => if e.1 == pid then (e.1, c) else e)

/-- Go's `peerstore.AddAddr(pid, ma, TempAddrTTL)`: record the address for
the peer (TTLs are not modelled). -/
def addAddr (ps : List (String × List Multiaddr)) (pid : String) (m : Multiaddr) :
    List (String × List Multiaddr) :=
  match ps.find? (fun e => e.1 == pid) with
  | none => ps ++ [(pid, [m])]
  | some _ =>
      ps.map (fun e =>
        if e.1 == pid then (e.1, if e.2.contains m then e.2 else e.2 ++ [m]) else e)

/-- Go's `peerstore.SetAddr(pid, ma, -1)`: TTL -1 drops the address now. -/
def setAddrDrop (ps : List (String × List Multiaddr)) (pid : String) (m : Multiaddr) :
    List (String × List Multiaddr) :=
  ps.map (fun e => if e.1 == pid then (e.1, e.2.filter (fun x => !(x == m))) else e)

/-- The error kinds `Dial` surfaces (spec §7). -/
inductive DialError where
  | noListener
  | badMultiaddr
  | peerNotLinked
  | alreadyConnected
deriving DecidableEq

/-- The error kinds `Listen` surfaces (spec §7): `wrongMultiaddr` is the
`"wrong multiaddr"` wrap, `listenerExists` the `"one listener maximum"`. -/
inductive ListenError where
  | wrongMultiaddr
  | listenerExists
deriving DecidableEq

/-- Go's `github.com/pkg/errors`.`Wrap(err, message)` as documented by
that package: when `err` is nil the result is nil; otherwise a non-nil
error wrapping `err` with the message (represented here by the error
kind the message denotes). -/
def errorsWrap {α β : Type} (e : Option α) (kind : β) : Option β :=
  match e with
  | none => none
  | some _ => some kind

/-- Modelled from the spec: `conn.go`'s `newConn` is not under `src/`.
Spec §4.2 `new`: fails with the duplicate-connection error when the
connection map already holds the peer id; otherwise creates the `Conn`
(not yet ready, empty pre-ready cache and pipe) and inserts it into the
transport's connection map. -/
def newConn (t : Transport) (remoteMa : Multiaddr) (remotePID : String)
    (dir : Direction) : Except DialError (Transport × Conn) :=
  if (lookupConn t.connMap remotePID).isSome then
    .error .alreadyConnected
  else
    let c : Conn := ⟨remotePID, remoteMa, dir, false, NewRingBufferMap 128, []⟩
    .ok ({ t with connMap := t.connMap ++ [(remotePID, c)] }, c)

/-- The pair Go's `Dial` returns: a `tpt.CapableConn` (with the updated
transport state) and an `error`, either of which may be nil — and, per
the `pkg/errors` contract, both at once. -/
structure DialResult where
  conn : Option (Transport × Conn)
  err : Option DialError

/-- Go's `proximityTransport.Dial` (transport.go:97-129): listener gate, then
multiaddr validation, then the driver link gate, then the duplicate
check, then `newConn` with direction outbound.  The validation branch
returns `errors.Wrap(err, "wrong multiaddr")` where `err` comes from
`ValueForProtocol`: when the address fails to decode, `err` is non-nil
and the wrap is a non-nil bad-multiaddr error; when the address decodes
but its payload differs from the requested peer id, `err` is nil and
`errors.Wrap(nil, ...)` is nil — Go's `Dial` returns `(nil, nil)`. -/
def Dial (t : Transport) (remoteMa : Multiaddr) (remotePID : String) : DialResult :=
  match t.listener with
  | none => ⟨none, some .noListener⟩
  | some _ =>
      match valueForProtocol remoteMa t.driver.protocolCode with
      | none => ⟨none, errorsWrap (some ()) DialError.badMultiaddr⟩
      | some remoteAddr =>
          if remoteAddr != remotePID then
            ⟨none, errorsWrap (none : Option Unit) DialError.badMultiaddr⟩
          else if !(t.driver.dialPeer remoteAddr) then ⟨none, some .peerNotLinked⟩
          else if (lookupConn t.connMap remoteAddr).isSome then
            ⟨none, some .alreadyConnected⟩
          else
            match newConn t remoteMa remotePID Direction.outbound with
            | .ok r => ⟨some r, none⟩
            | .error e => ⟨none, some e⟩

/-- The result of `Listen`: the returned `tpt.Listener` and `error`
(either may be nil — and, per the `pkg/errors` contract, both at once),
together with the (possibly updated) global `TransportMap` registry —
modelled as the list of registered protocol names — and transport
state. -/
structure ListenResult where
  listener : Option Listener
  err : Option ListenError
  registry : List String
  transport : Transport

/-- Go's `proximityTransport.Listen` (transport.go:140-179): validate the
local multiaddress (it must decode under the driver's protocol code,
and either equal the `DefaultAddr()` sentinel or carry the local peer
id); normalize the default address to `/<protocolName>/<localPID>`;
reject when the registry already holds the protocol name or the
listener slot is occupied; otherwise register the transport and install
a fresh listener (modelled from spec §3/§4.3: `newListener` builds a
listener on the normalized address with an empty request queue and a
live context derived from the transport's).  The validation branch
returns `errors.Wrap(err, "wrong multiaddr")` where `err` comes from
`ValueForProtocol`: when the address fails to decode the wrap is a
non-nil error, but when it decodes to a payload that is neither the
default sentinel case nor the local peer id, `err` is nil and
`errors.Wrap(nil, ...)` is nil — Go's `Listen` returns `(nil, nil)`. -/
def Listen (registry : List String) (t : Transport) (localMa : Multiaddr) :
    ListenResult :=
  match valueForProtocol localMa t.driver.protocolCode with
  | none => ⟨none, errorsWrap (some ()) ListenError.wrongMultiaddr, registry, t⟩
  | some localAddr =>
      if maString localMa != t.driver.defaultAddr && localAddr != t.localPID then
        ⟨none, errorsWrap (none : Option Unit) ListenError.wrongMultiaddr, registry, t⟩
      else
        if registry.contains t.driver.protocolName || t.listener.isSome then
          ⟨none, some .listenerExists, registry, t⟩
        else
          let l : Listener :=
            ⟨if maString localMa == t.driver.defaultAddr then
                mkMultiaddr t.driver t.localPID
              else localMa, [], false⟩
          ⟨some l, none, registry ++ [t.driver.protocolName],
            { t with listener := some l }⟩

/-- Go's `make([]byte, len(payload)); copy(data, payload)` — the element-wise
copy of the driver's buffer into transport-owned memory. -/
def copyBytes : Bytes → Bytes
  | [] => []
  | b :: rest => b :: copyBytes rest

/-- Go's `proximityTransport.ReceiveFromPeer` (transport.go:185-214): copy
the payload, look the peer up in the connection map; with no `Conn` the
copy goes to the transport-level cache; with a non-ready `Conn` it goes
to that `Conn`'s pre-ready cache (the Go double-checked read of
`c.ready` collapses to a single read in this sequential embedding);
with a ready `Conn` it is pushed into the input pipe `c.mp.input`. -/
def ReceiveFromPeer (t : Transport) (remotePID : String) (payload : Bytes) :
    Transport :=
  let data := copyBytes payload
  match lookupConn t.connMap remotePID with
  | some c =>
      if c.ready = false then
        { t with connMap :=
            replaceConn t.connMap remotePID { c with cache := c.cache.Add remotePID data } }
      else
        { t with connMap :=
            replaceConn t.connMap remotePID { c with inputPipe := c.inputPipe ++ [data] } }
  | none => { t with cache := t.cache.Add remotePID data }

/-- Modelled from the spec: `listener.go`'s `Addr()` accessor is not
under `src/`.  Spec §3 says the listener's multiaddress is normalized to
contain the local peer id, and §4.4.4/§9 say the election compares the
local *peer-id string* with the remote peer-id string; `Addr().String()`
is therefore the peer-id payload of the normalized local multiaddress
under the driver's protocol code (the empty string models the swallowed
decoding error). -/
def Listener.AddrString (d : ProximityDriver) (l : Listener) : String :=
  (valueForProtocol l.localMa d.protocolCode).getD ""

/-- Go's `<` on strings: byte-wise lexicographic comparison, embedded
on the character lists (the peer-id strings in play are ASCII, where
byte-wise and character-wise orders agree). -/
def strLtList : List Char → List Char → Bool
  | [], [] => false
  | [], _ :: _ => true
  | _ :: _, [] => false
  | a :: as, b :: bs => if a < b then true else if b < a then false else strLtList as bs

/-- Go's `s1 < s2` on strings. -/
def strLt (s1 s2 : String) : Bool := strLtList s1.data s2.data

/-- Which exit `HandleFoundPeer` took. -/
inductive FoundPeerBranch where
  | badPeerID
  | noListener
  | dial
  | accept
  | acceptAborted
deriving DecidableEq

/-- The boolean returned to the driver, the exit taken, and the new
state.  In the `dial` branch the asynchronous connect has been spawned
(its body only touches the overlay swarm, outside this state). -/
structure FoundPeerResult where
  ret : Bool
  branch : FoundPeerBranch
  state : Transport

/-- The state in force when `HandleFoundPeer` evaluates the election:
the peer has been added to the peerstore (transport.go:248) and the
transport-level cache entry for it has been deleted (transport.go:252). -/
def foundPeerPreElection (t : Transport) (sRemotePID : String)
    (remoteMa : Multiaddr) : Transport :=
  { t with
    peerstore := addAddr t.peerstore sRemotePID remoteMa,
    cache := t.cache.Delete sRemotePID }

/-- Go's `proximityTransport.HandleFoundPeer` (transport.go:218-287).
`decodeOk` models `peer.Decode` succeeding on the string (the decoded
peer id round-trips to the same string).  After the decode and the
running-listener gate, the peerstore add and the cache delete happen,
then the election: the dial branch spawns the asynchronous connect and
returns true, the accept branch performs the `select` sending the
`connReq` on the listener's inbound-request channel (queue append),
returning false instead if the listener context is done. -/
def HandleFoundPeer (decodeOk : String → Bool) (t : Transport)
    (sRemotePID : String) : FoundPeerResult :=
  if !(decodeOk sRemotePID) then ⟨false, .badPeerID, t⟩
  else
    let remoteMa := mkMultiaddr t.driver sRemotePID
    match t.listener with
    | none => ⟨false, .noListener, t⟩
    | some listener =>
        if listener.ctxCancelled then ⟨false, .noListener, t⟩
        else
          let t2 := foundPeerPreElection t sRemotePID remoteMa
          if strLt (Listener.AddrString t.driver listener) sRemotePID then
            ⟨true, .dial, t2⟩
          else
            if listener.ctxCancelled then ⟨false, .acceptAborted, t2⟩
            else
              let l2 := { listener with
                inboundConnReq := listener.inboundConnReq ++ [⟨remoteMa, sRemotePID⟩] }
              ⟨true, .accept, { t2 with listener := some l2 }⟩

/-- Go's `proximityTransport.HandleLostPeer` (transport.go:309-333): on a
malformed peer id, log and return; otherwise drop the peer's address
from the peerstore (TTL -1) and close every swarm connection to the
peer whose remote multiaddress equals `/<protocol>/<peer-id>`. -/
def HandleLostPeer (decodeOk : String → Bool) (t : Transport)
    (sRemotePID : String) : Transport :=
  if !(decodeOk sRemotePID) then t
  else
    let remoteMa := mkMultiaddr t.driver sRemotePID
    { t with
      peerstore := setAddrDrop t.peerstore sRemotePID remoteMa,
      swarmConns := t.swarmConns.map (fun c =>
        if c.remotePID == sRemotePID && c.remoteMa == remoteMa then
          { c with closed := true }
        else c) }

/-- Modelled from the spec: the `NoopProximityDriver` source is not
under `src/`.  A driver whose operations are all no-ops: it is never
linked to any peer and carries placeholder protocol data. -/
def NoopProximityDriver : ProximityDriver :=
  ⟨"noop", 0, "/noop", fun _ => false⟩

/-- The overlay swarm as seen at construction time. -/
structure SwarmModel where
  localPeer : String

/-- Go's `NewTransport` (transport.go:66-93): a nil logger is replaced by the
no-op logger, the logger is named, a nil driver is replaced by the
`NoopProximityDriver` (after logging an error), and the returned
constructor always yields a fresh transport and a nil error (the
upgrader is opaque and not part of the state). -/
def NewTransport (lg : Option Logger) (driver : Option ProximityDriver)
    (sw : SwarmModel) : Except String Transport :=
  let l0 := match lg with
    | none => zapNewNop
    | some l => l
  let l1 := l0.Named "ProximityTransport"
  let d := match driver with
    | none => NoopProximityDriver
    | some d => d
  .ok
    { localPID := sw.localPeer
      connMap := []
      cache := NewRingBufferMap 128
      listener := none
      driver := d
      logger := l1
      peerstore := []
      swarmConns := [] }

/-! Supporting lemmas. -/

/-- Deleting a key from a `RingBufferMap` leaves no entry for it. -/
theorem lookup_Delete (m : RingBufferMap) (k : String) :
    (m.Delete k).lookup k = none := by
  have hfind : List.find? (fun e => e.1 == k)
      (m.entries.filter (fun e => !(e.1 == k))) = none := by
    rw [List.find?_eq_none]
    intro x hx
    have hmem := (List.mem_filter.mp hx).2
    simp only [Bool.not_eq_true', beq_eq_false_iff_ne, ne_eq] at hmem
    simp [hmem]
  simp [RingBufferMap.Delete, RingBufferMap.lookup, hfind]

/-- `HandleLostPeer` touches only the peerstore and the swarm's
connection list: cache, listener and driver are untouched. -/
theorem handleLostPeer_frame (dec : String → Bool) (t : Transport) (p : String) :
    (HandleLostPeer dec t p).cache = t.cache ∧
    (HandleLostPeer dec t p).listener = t.listener ∧
    (HandleLostPeer dec t p).driver = t.driver ∧
    (HandleLostPeer dec t p).localPID = t.localPID := by
  unfold HandleLostPeer
  split <;> simp

/-! Concrete fixtures used by the witness theorems. -/

/-- A driver that is linked to every peer. -/
def exDriver : ProximityDriver := ⟨"ble", 7, "/ble/default", fun _ => true⟩

/-- A driver that is linked to no peer. -/
def exDriverDown : ProximityDriver := ⟨"ble", 7, "/ble/default", fun _ => false⟩

/-- A plain (non-nop) logger. -/
def exLogger : Logger := ⟨false, ""⟩

/-- A fresh transport for local peer `QmA`, no listener installed. -/
def exT0 : Transport :=
  ⟨"QmA", [], NewRingBufferMap 128, none, exDriver, exLogger, [], []⟩

/-- The listener `Listen` installs on `exT0` for `/ble/QmA`. -/
def exListener : Listener := ⟨mkMultiaddr exDriver "QmA", [], false⟩

/-- `exT0` with the listener installed. -/
def exT1 : Transport := { exT0 with listener := some exListener }

/-- Every peer-id string decodes. -/
def exDec : String → Bool := fun _ => true

/-- A not-yet-ready connection to `QmB`. -/
def exConn : Conn :=
  ⟨"QmB", mkMultiaddr exDriver "QmB", Direction.outbound, false, NewRingBufferMap 128, []⟩

/-- A transport already holding a `Conn` for `QmB` whose driver is not
linked to anyone. -/
def exT2 : Transport :=
  { exT1 with connMap := [("QmB", exConn)], driver := exDriverDown }

/-- `exT1` with a payload already cached for `QmB` at transport level. -/
def exT3 : Transport :=
  { exT1 with cache := (NewRingBufferMap 128).Add "QmB" [9] }

/-- The default-address sentinel as a multiaddress. -/
def exDefaultMa : Multiaddr := ⟨[⟨7, "ble", "default"⟩]⟩

/-! Claim theorems. -/

/-- C5: whenever the transport has no installed listener, `Dial` fails
with the `NoListener` error, for every remote multiaddress, every
requested peer id and every driver state — in particular even when
`driver.DialPeer` would return true and even when the multiaddress is
invalid, showing the listener gate is checked before multiaddress
validation and before the driver link check. -/
theorem dial_no_listener (t : Transport) (remoteMa : Multiaddr) (remotePID : String)
    (h : t.listener = none) :
    Dial t remoteMa remotePID = ⟨none, some .noListener⟩ := by
  simp [Dial, h]

/-- C5 witness: a fresh transport with an always-linked driver still
fails with `NoListener`, on a multiaddress that would not even validate. -/
theorem dial_no_listener_witness :
    Dial exT0 ⟨[]⟩ "QmB" = ⟨none, some .noListener⟩ :=
  dial_no_listener exT0 ⟨[]⟩ "QmB" rfl

/-- C2 (code bug): with the listener installed, dialing peer `QmC`
through the address `/ble/QmB` — which decodes under the protocol code
but whose payload differs from the requested peer id — reaches
transport.go:110's `return nil, errors.Wrap(err, ...)` with `err` nil,
and `errors.Wrap(nil, ...)` is nil per `pkg/errors`: Go's `Dial`
returns `(nil, nil)` — no `Conn` but also no error — whereas the claim
(with spec §7 `BadMultiaddr` and the code's own `"wrong multiaddr"`
message as the evident intent) requires a non-nil error.  The last
conjunct contrasts the decode-failure case, where the wrap is non-nil
as claimed. -/
theorem dial_wrap_nil_bug :
    (Dial exT1 (mkMultiaddr exDriver "QmB") "QmC").err = none ∧
    (Dial exT1 (mkMultiaddr exDriver "QmB") "QmC").conn = none ∧
    valueForProtocol (mkMultiaddr exDriver "QmB") exT1.driver.protocolCode =
      some "QmB" ∧
    (Dial exT1 ⟨[]⟩ "QmC").err = some DialError.badMultiaddr :=
  ⟨rfl, rfl, rfl, rfl⟩

/-- C6: with a listener installed and a remote multiaddress that decodes
under the protocol code to exactly the requested peer id, `Dial` fails
with the `PeerNotLinked` error iff `driver.DialPeer` reports false for
that peer — for every connection-map state, so the link gate fires even
when a duplicate `Conn` exists, i.e. before the duplicate check. -/
theorem dial_link_gate (t : Transport) (l : Listener) (remoteMa : Multiaddr)
    (remotePID : String) (hl : t.listener = some l)
    (hv : valueForProtocol remoteMa t.driver.protocolCode = some remotePID) :
    (Dial t remoteMa remotePID = ⟨none, some .peerNotLinked⟩ ↔
      t.driver.dialPeer remotePID = false) := by
  cases hd : t.driver.dialPeer remotePID
  · simp [Dial, hl, hv, hd]
  · cases hdup : (lookupConn t.connMap remotePID).isSome
    · simp [Dial, hl, hv, hd, hdup, newConn]
    · simp [Dial, hl, hv, hd, hdup, newConn]

/-- C6 witness: with an unlinked driver and even a duplicate `Conn`
already in the map for `QmB`, dialing `QmB` fails with `PeerNotLinked`
(not `AlreadyConnected`). -/
theorem dial_link_gate_witness :
    Dial exT2 (mkMultiaddr exDriverDown "QmB") "QmB" = ⟨none, some .peerNotLinked⟩ :=
  (dial_link_gate exT2 exListener (mkMultiaddr exDriverDown "QmB") "QmB" rfl rfl).mpr rfl

/-- C4 (code bug): listening on `/ble/QmB` from peer `QmA` — an address
that neither prints as the default sentinel nor carries the local peer
id, yet decodes fine — reaches transport.go:146's
`return nil, errors.Wrap(err, ...)` with `err` nil, and
`errors.Wrap(nil, ...)` is nil per `pkg/errors`: Go's `Listen` returns
`(nil, nil)` — no listener installed (registry and transport
unchanged) but also no error — whereas the claim requires a non-nil
error.  The last conjunct contrasts the decode-failure case, where the
wrap is non-nil as claimed. -/
theorem listen_wrap_nil_bug :
    (Listen [] exT0 (mkMultiaddr exDriver "QmB")).err = none ∧
    (Listen [] exT0 (mkMultiaddr exDriver "QmB")).listener = none ∧
    (Listen [] exT0 (mkMultiaddr exDriver "QmB")).registry = [] ∧
    (Listen [] exT0 (mkMultiaddr exDriver "QmB")).transport = exT0 ∧
    maString (mkMultiaddr exDriver "QmB") ≠ exT0.driver.defaultAddr ∧
    valueForProtocol (mkMultiaddr exDriver "QmB") exT0.driver.protocolCode =
      some "QmB" ∧
    ("QmB" : String) ≠ exT0.localPID ∧
    (Listen [] exT0 ⟨[]⟩).err = some ListenError.wrongMultiaddr :=
  ⟨rfl, rfl, rfl, rfl, by decide, rfl, by decide, rfl⟩

/-- The address-validation gate of `Listen` in isolation: true iff the
address decodes under the protocol code and either prints as the
default-address sentinel or carries the local peer id. -/
def listenAddrOk (t : Transport) (m : Multiaddr) : Bool :=
  match valueForProtocol m t.driver.protocolCode with
  | none => false
  | some v => maString m == t.driver.defaultAddr || v == t.localPID

/-- When `Listen` returns a listener it has appended the driver's
protocol name to the global registry. -/
theorem listen_ok_registry (reg : List String) (t : Transport) (ma1 : Multiaddr)
    (h : (Listen reg t ma1).listener.isSome = true) :
    (Listen reg t ma1).registry = reg ++ [t.driver.protocolName] := by
  unfold Listen at h ⊢
  rcases hv : valueForProtocol ma1 t.driver.protocolCode with _ | v
  · simp only [hv] at h
    simp at h
  · simp only [hv] at h ⊢
    split_ifs at h ⊢ <;> simp_all

/-- C7 as amended: after any transport successfully completes `Listen`,
a subsequent `Listen` call that passes address validation — on that
same transport or on any transport registered under the same protocol
name — fails with the `ListenerExists` error and leaves the registry
and the target's listener slot unchanged.  (The original claim, over
every subsequent call, fails on validation-failing addresses: those
exit earlier with the wrong-multiaddr wrap — nil, per the C4 bug, when
the address decodes — and never reach the `ListenerExists` branch; see
the counterexample.) -/
theorem listen_singleton (reg : List String) (t : Transport) (ma1 : Multiaddr)
    (l : Listener) (regA : List String) (tA : Transport)
    (h1 : Listen reg t ma1 = ⟨some l, none, regA, tA⟩)
    (t2 : Transport) (ma2 : Multiaddr)
    (hname : t2.driver.protocolName = t.driver.protocolName)
    (hok : listenAddrOk t2 ma2 = true) :
    Listen regA t2 ma2 = ⟨none, some .listenerExists, regA, t2⟩ := by
  have hOk : (Listen reg t ma1).listener.isSome = true := by
    rw [h1]
    rfl
  have hreg : regA = reg ++ [t.driver.protocolName] := by
    have h2 := listen_ok_registry reg t ma1 hOk
    rw [h1] at h2
    exact h2
  have hmem : t2.driver.protocolName ∈ regA := by
    rw [hreg, hname]
    exact List.mem_append_right _ (List.mem_singleton_self _)
  rcases hv2 : valueForProtocol ma2 t2.driver.protocolCode with _ | v
  · simp [listenAddrOk, hv2] at hok
  · have hok2 : maString ma2 = t2.driver.defaultAddr ∨ v = t2.localPID := by
      have h := hok
      simp [listenAddrOk, hv2] at h
      exact h
    have hcond : (maString ma2 != t2.driver.defaultAddr && v != t2.localPID) = false := by
      rcases hok2 with h | h <;> simp [h]
    simp [Listen, hv2, hcond, hmem]

/-- C7 counterexample: the original claim is false for a subsequent
call with an address failing validation.  `Listen` on the fresh
transport `exT0` succeeds, yielding registry `["ble"]` and transport
`exT1`; the subsequent `Listen ["ble"] exT1 /ble/QmB` — same transport,
same protocol name — returns a nil error (the `errors.Wrap(nil, ...)`
path), not the `ListenerExists` error the claim requires of every
subsequent call. -/
theorem listen_singleton_counterexample :
    Listen [] exT0 (mkMultiaddr exDriver "QmA") =
      ⟨some exListener, none, ["ble"], exT1⟩ ∧
    (Listen ["ble"] exT1 (mkMultiaddr exDriver "QmB")).err ≠
      some ListenError.listenerExists ∧
    (Listen ["ble"] exT1 (mkMultiaddr exDriver "QmB")).err = none :=
  ⟨rfl, by decide, rfl⟩

/-- C7 witness: `Listen` on the fresh transport `exT0` succeeds and
yields registry `["ble"]`; the second `Listen` — on the very same
transport, now `exT1`, with a validation-passing address — fails with
`ListenerExists` and changes nothing. -/
theorem listen_singleton_witness :
    Listen ["ble"] exT1 (mkMultiaddr exDriver "QmA") =
      ⟨none, some .listenerExists, ["ble"], exT1⟩ :=
  listen_singleton [] exT0 (mkMultiaddr exDriver "QmA") exListener ["ble"] exT1 rfl
    exT1 (mkMultiaddr exDriver "QmA") rfl rfl

/-- C9: when `Listen` is given a multiaddress printing as the driver's
`DefaultAddr()` sentinel (and decoding under the protocol code, with
the registry and listener slot free), it returns a listener — with a
nil error — whose address is the normalized
`/<protocolName>/<localPeerID>`. -/
theorem listen_default_normalizes (reg : List String) (t : Transport)
    (localMa : Multiaddr) (v : String)
    (hdef : maString localMa = t.driver.defaultAddr)
    (hv : valueForProtocol localMa t.driver.protocolCode = some v)
    (hreg : t.driver.protocolName ∉ reg)
    (hslot : t.listener = none) :
    (Listen reg t localMa).listener =
      some ⟨mkMultiaddr t.driver t.localPID, [], false⟩ ∧
    (Listen reg t localMa).err = none ∧
    maString (mkMultiaddr t.driver t.localPID) =
      "/" ++ t.driver.protocolName ++ "/" ++ t.localPID := by
  refine ⟨?_, ?_, ?_⟩
  · simp [Listen, hv, hdef, hreg, hslot]
  · simp [Listen, hv, hdef, hreg, hslot]
  · simp [maString, mkMultiaddr, String.empty_append, String.append_assoc]

/-- C9 witness: listening on the sentinel `/ble/default` from peer
`QmA` yields a listener whose address is `/ble/QmA`. -/
theorem listen_default_normalizes_witness :
    (Listen [] exT0 exDefaultMa).listener =
      some ⟨mkMultiaddr exT0.driver exT0.localPID, [], false⟩ ∧
    (Listen [] exT0 exDefaultMa).err = none ∧
    maString (mkMultiaddr exT0.driver exT0.localPID) =
      "/" ++ exT0.driver.protocolName ++ "/" ++ exT0.localPID :=
  listen_default_normalizes [] exT0 exDefaultMa "default" rfl rfl (by simp) rfl

/-- C3: every `ReceiveFromPeer(p, payload)` call first copies the
payload (`copyBytes`) and then routes the copy: to the transport-level
cache under key `p` when no `Conn` for `p` is in the connection map; to
the `Conn`'s pre-ready cache when a `Conn` exists but is not ready; and
into the `Conn`'s input pipe when the `Conn` is ready. -/
theorem receiveFromPeer_routing (t : Transport) (p : String) (payload : Bytes) :
    (lookupConn t.connMap p = none →
      ReceiveFromPeer t p payload =
        { t with cache := t.cache.Add p (copyBytes payload) }) ∧
    (∀ c, lookupConn t.connMap p = some c → c.ready = false →
      ReceiveFromPeer t p payload =
        { t with connMap := (replaceConn t.connMap p
            { c with cache := c.cache.Add p (copyBytes payload) }) }) ∧
    (∀ c, lookupConn t.connMap p = some c → c.ready = true →
      ReceiveFromPeer t p payload =
        { t with connMap := (replaceConn t.connMap p
            { c with inputPipe := c.inputPipe ++ [copyBytes payload] }) }) := by
  refine ⟨fun h => ?_, fun c hc hr => ?_, fun c hc hr => ?_⟩
  · simp [ReceiveFromPeer, h]
  · simp [ReceiveFromPeer, hc, hr]
  · simp [ReceiveFromPeer, hc, hr]

/-- C3 witness: with no `Conn` for `QmB`, the copied payload lands in
the transport-level cache. -/
theorem receiveFromPeer_routing_witness :
    ReceiveFromPeer exT0 "QmB" [1, 2] =
      { exT0 with cache := exT0.cache.Add "QmB" (copyBytes [1, 2]) } :=
  (receiveFromPeer_routing exT0 "QmB" [1, 2]).1 rfl

/-- C1: with a running listener whose normalized address carries the
local peer id, and a remote peer-id string distinct from the local one
that decodes, `HandleFoundPeer` takes the dial branch (asynchronous
connect spawned, true returned) iff the local peer-id string is
lexicographically smaller than the remote one, and otherwise takes the
accept branch (a `connReq` is handed to the listener's inbound-request
channel and true is returned). -/
theorem handleFoundPeer_election (dec : String → Bool) (t : Transport) (l : Listener)
    (remote : String) (hl : t.listener = some l) (hctx : l.ctxCancelled = false)
    (hdec : dec remote = true)
    (haddr : valueForProtocol l.localMa t.driver.protocolCode = some t.localPID)
    (_hne : t.localPID ≠ remote) :
    (((HandleFoundPeer dec t remote).branch = .dial ∧
        (HandleFoundPeer dec t remote).ret = true) ↔
      strLt t.localPID remote = true) ∧
    (((HandleFoundPeer dec t remote).branch = .accept ∧
        (HandleFoundPeer dec t remote).ret = true ∧
        (HandleFoundPeer dec t remote).state.listener = some
          { l with inboundConnReq :=
              l.inboundConnReq ++ [⟨mkMultiaddr t.driver remote, remote⟩] }) ↔
      strLt t.localPID remote = false) := by
  have haddrS : Listener.AddrString t.driver l = t.localPID := by
    simp [Listener.AddrString, haddr]
  cases hcmp : strLt t.localPID remote
  · simp [HandleFoundPeer, hl, hctx, hdec, haddrS, hcmp, foundPeerPreElection]
  · simp [HandleFoundPeer, hl, hctx, hdec, haddrS, hcmp, foundPeerPreElection]

/-- C1 witness: local `QmA` discovering `QmB` (with `QmA < QmB`) takes
the dial branch and returns true. -/
theorem handleFoundPeer_election_witness :
    (HandleFoundPeer exDec exT1 "QmB").branch = FoundPeerBranch.dial ∧
    (HandleFoundPeer exDec exT1 "QmB").ret = true :=
  (handleFoundPeer_election exDec exT1 exListener "QmB" rfl rfl rfl rfl
    (by decide)).1.mpr (by decide)

/-- C8: when the remote peer id decodes and a running listener exists,
the transport-level cache entry for the peer is deleted before the
dial/accept election is evaluated — `HandleFoundPeer` evaluates the
election on `foundPeerPreElection`, whose cache holds nothing for the
peer — so after `HandleLostPeer(p)` (which never touches the cache)
followed by `HandleFoundPeer(p)`, the entry for `p` is empty at the
moment of election and still empty afterwards: payloads cached before
rediscovery are dropped. -/
theorem cache_flush_on_rediscovery (dec : String → Bool) (t : Transport)
    (l : Listener) (p : String) (hl : t.listener = some l)
    (hctx : l.ctxCancelled = false) (hdec : dec p = true) :
    (foundPeerPreElection (HandleLostPeer dec t p) p
        (mkMultiaddr (HandleLostPeer dec t p).driver p)).cache.lookup p = none ∧
    (HandleFoundPeer dec (HandleLostPeer dec t p) p).state.cache.lookup p = none := by
  have hl2 : (HandleLostPeer dec t p).listener = some l := by
    rw [(handleLostPeer_frame dec t p).2.1, hl]
  constructor
  · simp [foundPeerPreElection, lookup_Delete]
  · cases hcmp : strLt (Listener.AddrString (HandleLostPeer dec t p).driver l) p
    · simp [HandleFoundPeer, hl2, hctx, hdec, hcmp, foundPeerPreElection, lookup_Delete]
    · simp [HandleFoundPeer, hl2, hctx, hdec, hcmp, foundPeerPreElection, lookup_Delete]

/-- C8 witness: a payload cached for `QmB` before rediscovery is gone
both at the moment of election and afterwards. -/
theorem cache_flush_on_rediscovery_witness :
    (foundPeerPreElection (HandleLostPeer exDec exT3 "QmB") "QmB"
        (mkMultiaddr (HandleLostPeer exDec exT3 "QmB").driver "QmB")).cache.lookup
        "QmB" = none ∧
    (HandleFoundPeer exDec (HandleLostPeer exDec exT3 "QmB") "QmB").state.cache.lookup
        "QmB" = none :=
  cache_flush_on_rediscovery exDec exT3 exListener "QmB" rfl rfl rfl

/-- C10: `NewTransport` never reports failure: for every logger
argument, driver argument and swarm, the returned constructor yields a
fresh transport and a nil error; a missing (nil) logger is replaced by
the no-op logger and a missing (nil) driver by the
`NoopProximityDriver`. -/
theorem newTransport_total (lg : Option Logger) (driver : Option ProximityDriver)
    (sw : SwarmModel) :
    NewTransport lg driver sw = Except.ok
      { localPID := sw.localPeer
        connMap := []
        cache := NewRingBufferMap 128
        listener := none
        driver := driver.getD NoopProximityDriver
        logger := (lg.getD zapNewNop).Named "ProximityTransport"
        peerstore := []
        swarmConns := [] } := by
  cases lg <;> cases driver <;> rfl

end Proximity
